import Mathlib

/-!
Verification development for the browser-based virtual try-on viewer
(`lucy_clone`): a shallow embedding of the pose-to-garment transform
pipeline (skeleton mappers, Kalman filter, confidence estimator,
compositor plane sizing) together with theorems about it.

Conventions of the embedding:
* JavaScript numbers are modelled as rationals (`ℚ`); `NaN`/`Infinity`
  do not arise on the modelled paths (where a JS division by zero could
  occur, a comment records why the embedding's total division agrees
  with the source's observable behaviour).
* The platform math primitives `Math.sqrt`, `Math.atan2`, `Math.tan`
  and the constant `Math.PI` are abstracted as a record of functions
  (`JsMath`) threaded through the definitions; theorems quantify over
  it, and concrete evaluations instantiate it with `anyMath` (the
  properties evaluated there do not depend on the primitive's values).
* A JS array whose slots may be `undefined` is a `List (Option _)`;
  out-of-bounds indexing yields `none`.
* Mutable instance state becomes explicit state passing: each class's
  fields form a structure, and each method is a function from state
  (plus the garment object, an `Option Jacket`) to new state.
-/

/-- A 3-component vector `{x, y, z}` of JS numbers. -/
structure Vec3 where
  x : ℚ
  y : ℚ
  z : ℚ
deriving DecidableEq, Repr

/-- A MediaPipe landmark `{x, y, z, visibility}`; `visibility` may be
absent (`undefined` in JS). -/
structure Landmark where
  x : ℚ
  y : ℚ
  z : ℚ
  visibility : Option ℚ
deriving DecidableEq, Repr

/-- The pose sample handed to `update`: `poseData.landmarks` may itself
be absent, and individual slots of the array may be `undefined`. -/
structure PoseData where
  landmarks : Option (List (Option Landmark))
deriving DecidableEq, Repr

/-- Abstraction of the JS `Math` primitives used by the source
(`Math.sqrt`, `Math.atan2`, `Math.tan`, `Math.PI`). -/
structure JsMath where
  sqrt : ℚ → ℚ
  atan2 : ℚ → ℚ → ℚ
  tan : ℚ → ℚ
  pi : ℚ

/-- A concrete instantiation of the math primitives, used to evaluate
the embedding on concrete inputs in statements whose truth does not
depend on the primitives' values. -/
def anyMath : JsMath where
  sqrt := fun q => q
  atan2 := fun y _ => y
  tan := fun q => q
  pi := 3

/-- A renderable part of the garment model (visibility and frustum
culling flags, the only fields the mappers touch). -/
structure Mesh where
  visible : Bool
  frustumCulled : Bool
deriving DecidableEq, Repr

/-- The garment root object returned by `modelLoader.getModel()`:
position, Euler rotation and scale vectors, the visibility flag, and
the constituent meshes. -/
structure Jacket where
  position : Vec3
  rotation : Vec3
  scale : Vec3
  visible : Bool
  meshes : List Mesh
deriving DecidableEq, Repr

/-- `landmarks[i]` on a JS array with possibly-`undefined` slots:
out of bounds or an `undefined` slot both give `none`. -/
def getLm (lm : List (Option Landmark)) (i : ℕ) : Option Landmark :=
  lm.getD i none

/-- Modelled from the spec: `Utils.clamp` is not under `src/` (only its
call sites are); the spec requires the value to be "clamped to a
configured [min,max] range". -/
def clamp (value lo hi : ℚ) : ℚ :=
  min (max value lo) hi

/-- Modelled from the spec: `Utils.ema` is not under `src/` (only its
call sites are); the spec defines the exponential moving average as
`smoothed = prev + α * (raw - prev)`. -/
def ema (raw prev alpha : ℚ) : ℚ :=
  prev + alpha * (raw - prev)

/-- Component-wise EMA of a `{x, y, z}` record, as built inline by
`applySmoothing` in the skeleton mappers. -/
def emaVec (current prev : Vec3) (alpha : ℚ) : Vec3 :=
  ⟨ema current.x prev.x alpha, ema current.y prev.y alpha, ema current.z prev.z alpha⟩

/-- Iterating the EMA with a fixed raw value `v`: `emaIter alpha v s0 n`
is the smoothed value after `n` frames starting from `s0`. -/
def emaIter (alpha v s0 : ℚ) : ℕ → ℚ
  | 0 => s0
  | n + 1 => ema v (emaIter alpha v s0 n) alpha

/-- State of the 1D `KalmanFilter` of `part_004`: estimate `x`, error
covariance `P`, and the construction-time noise constants `Q`, `R`. -/
structure KState where
  x : ℚ
  P : ℚ
  Q : ℚ
  R : ℚ
deriving DecidableEq, Repr

/-- `KalmanFilter.update(measurement)` (part_004 lines 15–25): predict
`P_pred = P + Q`, gain `K = P_pred/(P_pred + R)`, new estimate
`x + K*(measurement - x)`, new covariance `(1 - K)*P_pred`. The method
returns the new estimate, which is the `x` field of the result. -/
def kalmanUpdate (k : KState) (measurement : ℚ) : KState :=
  let Ppred := k.P + k.Q
  let K := Ppred / (Ppred + k.R)
  { x := k.x + K * (measurement - k.x)
    P := (1 - K) * Ppred
    Q := k.Q
    R := k.R }

/-- `KalmanFilter.reset()`: estimate back to 0, covariance back to 1;
the noise constants are untouched. -/
def kalmanReset (k : KState) : KState :=
  { k with x := 0, P := 1 }

/-! ## EnhancedSkeletonMapper (src/frontend/js/skeleton-mapper.js, first class) -/

/-- The mapper's `calibration` record (skeleton-mapper.js lines 20–27). -/
structure Calibration where
  scaleMultiplier : ℚ
  depthOffset : ℚ
  depthMultiplier : ℚ
  verticalOffset : ℚ
  horizontalOffset : ℚ
  smoothingAlpha : ℚ
deriving DecidableEq, Repr

/-- Constructor values of `this.calibration` (skeleton-mapper.js
lines 20–27): scale ×25, depth +0.5, depth ×2, vertical −2, α = 0.15. -/
def em_defaultCalibration : Calibration :=
  ⟨25, 1/2, 2, -2, 0, 15/100⟩

/-- The `smoothBuffer` record: per-channel EMA memory for position,
rotation and scale. The source initialises the `scale` slot with the
scalar `1`, which the very first `applySmoothing('scale')` call
replaces by an `{x, y, z}` record; the embedding stores the vector form
throughout, with initial value `⟨1, 1, 1⟩`. -/
structure Buffer where
  position : Vec3
  rotation : Vec3
  scale : Vec3
deriving DecidableEq, Repr

/-- Mutable instance fields of `EnhancedSkeletonMapper`. -/
structure EMState where
  width : ℚ
  height : ℚ
  initialized : Bool
  lastPose : Option PoseData
  hasShownJacket : Bool
  updateCount : ℕ
  smoothBuffer : Buffer
  calibration : Calibration
  isTracking : Bool
deriving DecidableEq, Repr

/-- The constructor state of `EnhancedSkeletonMapper` (lines 4–31);
`minConfidence` is the constant 0.3 and is never written, so it is kept
as `em_minConfidence` rather than a state field. -/
def em_initialState : EMState :=
  { width := 0
    height := 0
    initialized := false
    lastPose := none
    hasShownJacket := false
    updateCount := 0
    smoothBuffer := ⟨⟨0, 0, 0⟩, ⟨0, 0, 0⟩, ⟨1, 1, 1⟩⟩
    calibration := em_defaultCalibration
    isTracking := false }

/-- `this.minConfidence = 0.3` (line 30), described in the source as a
"very low threshold"; it is computed against nowhere in this class. -/
def em_minConfidence : ℚ := 3/10

/-- `init(width, height)` (lines 33–39). -/
def em_init (w h : ℚ) (s : EMState) : EMState :=
  { s with width := w, height := h, initialized := true }

/-- `reset()` (lines 210–221): smoothing buffer, last pose, tracking
flags and update count back to constructor values; `calibration`,
`width`, `height` and `initialized` are untouched. -/
def em_reset (s : EMState) : EMState :=
  { s with
    smoothBuffer := ⟨⟨0, 0, 0⟩, ⟨0, 0, 0⟩, ⟨1, 1, 1⟩⟩
    lastPose := none
    isTracking := false
    hasShownJacket := false
    updateCount := 0 }

/-- `calculateShoulderPosition(landmarks)` (lines 91–116). Landmark
indices come from `CONFIG.SKELETON.LANDMARKS`: nose 0, left shoulder
11, right shoulder 12. -/
def em_calculateShoulderPosition (calib : Calibration) (lm : List (Option Landmark)) : Vec3 :=
  match getLm lm 11, getLm lm 12 with
  | some ls, some rs =>
    let cx := (ls.x + rs.x) / 2
    let cy := (ls.y + rs.y) / 2
    let cz := (ls.z + rs.z) / 2
    let avgDepth :=
      match getLm lm 0 with
      | some nose => (ls.z + rs.z + nose.z) / 3
      | none => cz
    ⟨(cx - 1/2) * 20 + calib.horizontalOffset,
     -(cy - 1/2) * 20 + calib.verticalOffset,
     calib.depthOffset + avgDepth * calib.depthMultiplier⟩
  | _, _ => ⟨0, 0, calib.depthOffset⟩

/-- `calculateBodyRotation(landmarks)` (lines 118–141). -/
def em_calculateBodyRotation (M : JsMath) (lm : List (Option Landmark)) : Vec3 :=
  match getLm lm 11, getLm lm 12 with
  | some ls, some rs =>
    let dx := rs.x - ls.x
    let dy := rs.y - ls.y
    let rollAngle := M.atan2 dy dx
    let shoulderWidth := M.sqrt (dx * dx + dy * dy)
    let depthDiff := rs.z - ls.z
    let yawAngle := M.atan2 depthDiff shoulderWidth * (3/2)
    ⟨M.pi, M.pi + yawAngle, -rollAngle⟩
  | _, _ => ⟨M.pi, M.pi, 0⟩

/-- `calculateShoulderScale(landmarks)` (lines 143–162): 3D shoulder
distance times the calibration multiplier, clamped to [8, 30]; missing
shoulders give the default 10. -/
def em_calculateShoulderScale (M : JsMath) (calib : Calibration)
    (lm : List (Option Landmark)) : ℚ :=
  match getLm lm 11, getLm lm 12 with
  | some ls, some rs =>
    let dx := rs.x - ls.x
    let dy := rs.y - ls.y
    let dz := rs.z - ls.z
    let shoulderWidth := M.sqrt (dx * dx + dy * dy + dz * dz)
    clamp (shoulderWidth * calib.scaleMultiplier) 8 30
  | _, _ => 10

/-- Loop body of the `keyPoints.forEach` visibility accumulation shared
by both `calculateConfidence` implementations (skeleton-mapper.js
lines 190–196, part_004 lines 359–365): a key point contributes to
`(totalVisibility, validPoints)` only when present with a defined
`visibility`. -/
def visStep (lm : List (Option Landmark)) (a : ℚ × ℕ) (idx : ℕ) : ℚ × ℕ :=
  match getLm lm idx with
  | some l =>
    match l.visibility with
    | some v => (a.1 + v, a.2 + 1)
    | none => a
  | none => a

/-- `calculateConfidence(landmarks)` (lines 178–199): mean visibility
over the key points (shoulders 11/12, elbows 13/14, nose 0); a key
point is counted only when present with a defined `visibility`; no
valid point gives 0. -/
def em_calculateConfidence (lm : List (Option Landmark)) : ℚ :=
  let acc := [11, 12, 13, 14, 0].foldl (visStep lm) ((0 : ℚ), (0 : ℕ))
  if 0 < acc.2 then acc.1 / (acc.2 : ℚ) else 0

/-- The input gate of `EnhancedSkeletonMapper.update` (lines 42–45)
composed with `calculateConfidence`: a null pose, absent landmark
array, or fewer than 33 landmarks is never scored (update performs no
processing for it), so the estimate reported for such input is 0. -/
def em_confidenceEstimate (pose : Option PoseData) : ℚ :=
  match pose with
  | none => 0
  | some pd =>
    match pd.landmarks with
    | none => 0
    | some lm => if lm.length < 33 then 0 else em_calculateConfidence lm

/-- `update(poseData)` (lines 41–89). In this class the computed
confidence is used only in a throttled console log (lines 59, 82–84)
and gates nothing; the `try` block cannot throw for any landmark
pattern because every landmark access is null-checked, so the catch
branch (lines 86–88) is dead. The jacket is passed as the current
result of `modelLoader.getModel()`. -/
def em_update (M : JsMath) (s : EMState) (j : Option Jacket)
    (pose : Option PoseData) : EMState × Option Jacket :=
  if s.initialized = false then (s, j) else
  match pose with
  | none => (s, j)
  | some pd =>
    match pd.landmarks with
    | none => (s, j)
    | some lm =>
      if lm.length < 33 then (s, j) else
      let s1 := { s with updateCount := s.updateCount + 1 }
      match j with
      | none => (s1, none)
      | some jk =>
        let forceShow := s1.hasShownJacket = false ∧ 3 < s1.updateCount
        let s2 := if forceShow then { s1 with hasShownJacket := true } else s1
        let jk2 := if forceShow then { jk with visible := true } else jk
        let pos := em_calculateShoulderPosition s2.calibration lm
        let rot := em_calculateBodyRotation M lm
        let sc := em_calculateShoulderScale M s2.calibration lm
        let alpha := s2.calibration.smoothingAlpha
        let sp := emaVec pos s2.smoothBuffer.position alpha
        let sr := emaVec rot s2.smoothBuffer.rotation alpha
        let ss := emaVec ⟨sc, sc, sc⟩ s2.smoothBuffer.scale alpha
        let jk3 := { jk2 with
          position := sp
          rotation := sr
          scale := ⟨ss.x, ss.x, ss.x⟩
          visible := true }
        ({ s2 with
            smoothBuffer := ⟨sp, sr, ss⟩
            isTracking := true
            lastPose := some pd },
         some jk3)

/-! ## SkeletonMapper (src/frontend/js/skeleton-mapper.js, second class,
the "FIXED VERSION - JACKET ON TORSO ONLY" iteration) -/

/-- Mutable instance fields of `SkeletonMapper` (lines 240–252). -/
structure SMState where
  width : ℚ
  height : ℚ
  initialized : Bool
  hasSetInitialPosition : Bool
  smoothBuffer : Buffer
deriving DecidableEq, Repr

/-- Constructor `smoothBuffer` of `SkeletonMapper` (lines 247–251):
rotation starts at the base facing-camera orientation `(0, π, 0)`.
As in `EMState`, the scalar `scale: 2.5` slot is stored in vector form. -/
def sm_initialBuffer (M : JsMath) : Buffer :=
  ⟨⟨0, 0, 0⟩, ⟨0, M.pi, 0⟩, ⟨5/2, 5/2, 5/2⟩⟩

/-- Constructor state of `SkeletonMapper` (lines 240–252). -/
def sm_initialState (M : JsMath) : SMState :=
  { width := 0
    height := 0
    initialized := false
    hasSetInitialPosition := false
    smoothBuffer := sm_initialBuffer M }

/-- `setInitialPosition()` (lines 266–294): if the model is not loaded
it only schedules a retry timer (no state change now); otherwise it
applies the default transform — position `(0,0,0)`, scale `2.5`,
rotation `(0, π, 0)` — forces the jacket and all meshes visible,
disables frustum culling, and records `hasSetInitialPosition`. -/
def sm_setInitialPosition (M : JsMath) (s : SMState) (j : Option Jacket) :
    SMState × Option Jacket :=
  match j with
  | none => (s, none)
  | some jk =>
    ({ s with hasSetInitialPosition := true },
     some { position := ⟨0, 0, 0⟩
            rotation := ⟨0, M.pi, 0⟩
            scale := ⟨5/2, 5/2, 5/2⟩
            visible := true
            meshes := jk.meshes.map (fun _ => ⟨true, false⟩) })

/-- `SkeletonMapper.calculatePosition(landmarks)` (lines 340–361). -/
def sm_calculatePosition (lm : List (Option Landmark)) : Vec3 :=
  match getLm lm 11, getLm lm 12 with
  | some ls, some rs =>
    let cx := (ls.x + rs.x) / 2
    let cy := (ls.y + rs.y) / 2
    let cz := (ls.z + rs.z) / 2
    ⟨(cx - 1/2) * 4, -(cy - 2/5) * 4, -1 + cz * (3/2)⟩
  | _, _ => ⟨0, 0, 0⟩

/-- `SkeletonMapper.calculateRotation(landmarks)` (lines 363–385). -/
def sm_calculateRotation (M : JsMath) (lm : List (Option Landmark)) : Vec3 :=
  match getLm lm 11, getLm lm 12 with
  | some ls, some rs =>
    let dx := rs.x - ls.x
    let dy := rs.y - ls.y
    let rollAngle := M.atan2 dy dx
    let depthDiff := rs.z - ls.z
    let shoulderWidth := M.sqrt (dx * dx + dy * dy)
    let yawAngle := M.atan2 depthDiff shoulderWidth
    ⟨0, M.pi + yawAngle * (3/2), -rollAngle * (4/5)⟩
  | _, _ => ⟨0, M.pi, 0⟩

/-- `SkeletonMapper.calculateScale(landmarks)` (lines 387–405): 2D
shoulder width × 6, clamped to [2, 4]; default 2.5. -/
def sm_calculateScale (M : JsMath) (lm : List (Option Landmark)) : ℚ :=
  match getLm lm 11, getLm lm 12 with
  | some ls, some rs =>
    let dx := rs.x - ls.x
    let dy := rs.y - ls.y
    let shoulderWidth := M.sqrt (dx * dx + dy * dy)
    clamp (shoulderWidth * 6) 2 4
  | _, _ => 5/2

/-- `SkeletonMapper.update(poseData)` (lines 296–338): no null-pose
early-out; the jacket is forced visible every call; before the initial
position is set, any call (including `update(null)`) routes through
`setInitialPosition`; afterwards a valid 33-landmark pose is tracked
with per-channel EMA (α = 0.2 / 0.3 / 0.25). The `try` block cannot
throw (all landmark accesses are null-checked), so the catch is dead. -/
def sm_update (M : JsMath) (s : SMState) (j : Option Jacket)
    (pose : Option PoseData) : SMState × Option Jacket :=
  if s.initialized = false then (s, j) else
  match j with
  | none => (s, j)
  | some jk =>
    let jk1 := { jk with visible := true }
    if s.hasSetInitialPosition = false then
      sm_setInitialPosition M s (some jk1)
    else
      let tracked :=
        match pose with
        | none => none
        | some pd =>
          match pd.landmarks with
          | none => none
          | some lm => if 33 ≤ lm.length then some lm else none
      match tracked with
      | none => (s, some jk1)
      | some lm =>
        let pos := sm_calculatePosition lm
        let rot := sm_calculateRotation M lm
        let sc := sm_calculateScale M lm
        let sp := emaVec pos s.smoothBuffer.position (1/5)
        let sr := emaVec rot s.smoothBuffer.rotation (3/10)
        let ss := emaVec ⟨sc, sc, sc⟩ s.smoothBuffer.scale (1/4)
        ({ s with smoothBuffer := ⟨sp, sr, ss⟩ },
         some { jk1 with position := sp, rotation := sr, scale := ⟨ss.x, ss.x, ss.x⟩ })

/-! ## Enhanced Skeleton Mapper with Kalman filters (src/unnamed/part_004) -/

/-- `distance3D(p1, p2)` (part_004 lines 90–96 / 490–496): 0 when either
point is null/undefined; otherwise the 3D Euclidean distance (a missing
`z` is treated as 0, which the `ℚ` model subsumes since `z` is total). -/
def distance3D (M : JsMath) (p1 p2 : Option Landmark) : ℚ :=
  match p1, p2 with
  | some a, some b =>
    let dx := b.x - a.x
    let dy := b.y - a.y
    let dz := b.z - a.z
    M.sqrt (dx * dx + dy * dy + dz * dz)
  | _, _ => 0

/-- `midpoint(p1, p2)` (part_004 lines 98–105 / 501–508): `(0,0,0)` when
either point is null/undefined. -/
def midpointO (p1 p2 : Option Landmark) : Vec3 :=
  match p1, p2 with
  | some a, some b => ⟨(a.x + b.x) / 2, (a.y + b.y) / 2, (a.z + b.z) / 2⟩
  | _, _ => ⟨0, 0, 0⟩

/-- `distance3D` applied to two plain `{x, y, z}` records (the
shoulder/hip centers built by `midpoint`), which are always non-null. -/
def distanceV (M : JsMath) (a b : Vec3) : ℚ :=
  let dx := b.x - a.x
  let dy := b.y - a.y
  let dz := b.z - a.z
  M.sqrt (dx * dx + dy * dy + dz * dz)

/-- The `BodyMeasurements` record (part_004 lines 33–45). -/
structure Measurements where
  shoulderWidth : ℚ
  torsoLength : ℚ
  armLength : ℚ
  chestWidth : ℚ
  hipWidth : ℚ
deriving DecidableEq, Repr

/-- `BodyMeasurements.extract(landmarks)` (part_004 lines 47–88):
`null` for fewer than 33 landmarks. Landmark indices: shoulders 11/12,
elbows 13/14, wrists 15/16, hips 23/24. -/
def e4_extract (M : JsMath) (lm : List (Option Landmark)) : Option Measurements :=
  if lm.length < 33 then none else
  let sw := distance3D M (getLm lm 11) (getLm lm 12)
  let shoulderCenter := midpointO (getLm lm 11) (getLm lm 12)
  let hipCenter := midpointO (getLm lm 23) (getLm lm 24)
  let leftArm := distance3D M (getLm lm 11) (getLm lm 13) +
    distance3D M (getLm lm 13) (getLm lm 15)
  let rightArm := distance3D M (getLm lm 12) (getLm lm 14) +
    distance3D M (getLm lm 14) (getLm lm 16)
  some { shoulderWidth := sw
         torsoLength := distanceV M shoulderCenter hipCenter
         armLength := (leftArm + rightArm) / 2
         chestWidth := sw * (11/10)
         hipWidth := distance3D M (getLm lm 23) (getLm lm 24) }

/-- The enhanced mapper's `calibration` (part_004 lines 140–151). -/
structure E4Calibration where
  scaleMultiplier : ℚ
  depthMultiplier : ℚ
  verticalOffset : ℚ
  horizontalOffset : ℚ
  shoulderScale : ℚ
  chestScale : ℚ
  waistScale : ℚ
  hipScale : ℚ
deriving DecidableEq, Repr

/-- Constructor calibration of part_004 (lines 140–151). -/
def e4_defaultCalibration : E4Calibration :=
  ⟨18, -8, -1/2, 0, 23/20, 11/10, 1, 19/20⟩

/-- The seven per-channel Kalman filters (part_004 lines 120–128). -/
structure Filters where
  posX : KState
  posY : KState
  posZ : KState
  rotX : KState
  rotY : KState
  rotZ : KState
  scale : KState
deriving DecidableEq, Repr

/-- Constructor filters (part_004 lines 120–128): all start at
`x = 0, P = 1` with `Q = 0.001` and the per-channel `R` shown there. -/
def e4_initialFilters : Filters :=
  { posX := ⟨0, 1, 1/1000, 1/20⟩
    posY := ⟨0, 1, 1/1000, 1/20⟩
    posZ := ⟨0, 1, 1/1000, 1/10⟩
    rotX := ⟨0, 1, 1/1000, 1/10⟩
    rotY := ⟨0, 1, 1/1000, 1/10⟩
    rotZ := ⟨0, 1, 1/1000, 1/10⟩
    scale := ⟨0, 1, 1/1000, 1/20⟩ }

/-- Mutable instance fields of part_004's `EnhancedSkeletonMapper`.
`minConfidence = 0.7`, `confidenceHistorySize = 10` and
`updateInterval = 1000/60` are unchanging constants kept below. -/
structure E4State where
  initialized : Bool
  lastPose : Option PoseData
  currentMeasurements : Option Measurements
  filters : Filters
  confidenceHistory : List ℚ
  lastUpdateTime : ℚ
  calibration : E4Calibration
  isTracking : Bool
  trackingQuality : ℚ
deriving DecidableEq, Repr

/-- `this.minConfidence = 0.7` (part_004 line 133). -/
def e4_minConfidence : ℚ := 7/10

/-- `this.updateInterval = 1000 / 60` (part_004 line 137). -/
def e4_updateInterval : ℚ := 1000/60

/-- Constructor state of part_004's mapper (lines 109–156). -/
def e4_initialState : E4State :=
  { initialized := false
    lastPose := none
    currentMeasurements := none
    filters := e4_initialFilters
    confidenceHistory := []
    lastUpdateTime := 0
    calibration := e4_defaultCalibration
    isTracking := false
    trackingQuality := 0 }

/-- `reset()` (part_004 lines 513–520): every filter is reset
(estimate 0, covariance 1, noise constants kept), the confidence
history is emptied, and the tracking fields are cleared;
`lastUpdateTime`, `currentMeasurements` and `calibration` survive. -/
def e4_reset (s : E4State) : E4State :=
  { s with
    filters :=
      { posX := kalmanReset s.filters.posX
        posY := kalmanReset s.filters.posY
        posZ := kalmanReset s.filters.posZ
        rotX := kalmanReset s.filters.rotX
        rotY := kalmanReset s.filters.rotY
        rotZ := kalmanReset s.filters.rotZ
        scale := kalmanReset s.filters.scale }
    confidenceHistory := []
    lastPose := none
    isTracking := false
    trackingQuality := 0 }

/-- `updateConfidenceHistory(confidence)` (part_004 lines 433–438):
push, then shift the oldest entry once the history exceeds 10. -/
def e4_pushHistory (h : List ℚ) (c : ℚ) : List ℚ :=
  let h2 := h ++ [c]
  if 10 < h2.length then h2.drop 1 else h2

/-- Average of a list of confidences. `getAverageConfidence`
(lines 443–447) explicitly returns 0 for an empty history, which the
`ℚ` convention `0 / 0 = 0` reproduces; `handleLowConfidence`'s
`slice(-5)` average (lines 470–471) is only taken right after a push,
so its list is never empty. -/
def listAvg (l : List ℚ) : ℚ :=
  l.sum / (l.length : ℚ)

/-- `history.slice(-5)`: the last (up to) five entries. -/
def lastN (n : ℕ) (l : List ℚ) : List ℚ :=
  l.drop (l.length - n)

/-- `jacket.visible = false` in `hideJacket()` (lines 537–543),
lifted to the optional model handle. -/
def hideJacketO (j : Option Jacket) : Option Jacket :=
  j.map (fun jk => { jk with visible := false })

/-- `isFrontalPose(landmarks)` (part_004 lines 385–398): both shoulders
present and their depth difference below 0.15. -/
def e4_isFrontalPose (lm : List (Option Landmark)) : Bool :=
  match getLm lm 11, getLm lm 12 with
  | some ls, some rs => |ls.z - rs.z| < 3/20
  | _, _ => false

/-- `calculateSymmetry(landmarks)` (part_004 lines 403–428). The JS
condition `left && right && left.visibility && right.visibility` is
truthiness: a pair counts only when both landmarks are present and both
carry a visibility that is defined and non-zero. -/
def e4_calculateSymmetry (lm : List (Option Landmark)) : ℚ :=
  let acc := [(11, 12), (13, 14), (23, 24)].foldl
    (fun (a : ℚ × ℕ) p =>
      match getLm lm p.1, getLm lm p.2 with
      | some l, some r =>
        match l.visibility, r.visibility with
        | some lv, some rv =>
          if lv ≠ 0 ∧ rv ≠ 0 then (a.1 + (1 - |lv - rv|), a.2 + 1) else a
        | _, _ => a
      | _, _ => a)
    ((0 : ℚ), (0 : ℕ))
  if 0 < acc.2 then acc.1 / (acc.2 : ℚ) else 0

/-- `calculateConfidence(landmarks)` (part_004 lines 345–380): mean
visibility over shoulders/elbows/hips/nose, plus a 0.1 frontal bonus
and up to 0.05 symmetry bonus, clamped to [0, 1]; no valid key point
gives 0 before any bonus is added. -/
def e4_calculateConfidence (lm : List (Option Landmark)) : ℚ :=
  let acc := [11, 12, 13, 14, 23, 24, 0].foldl (visStep lm) ((0 : ℚ), (0 : ℕ))
  if acc.2 = 0 then 0 else
  let avgVisibility := acc.1 / (acc.2 : ℚ)
  let frontalBonus := if e4_isFrontalPose lm then 1/10 else 0
  let symmetryBonus := e4_calculateSymmetry lm * (1/20)
  clamp (avgVisibility + frontalBonus + symmetryBonus) 0 1

/-- `calculateEnhancedPosition(landmarks)` (part_004 lines 236–267).
The centers go through the null-safe `midpoint`, but `avgDepth` reads
`leftShoulder.z`, `rightShoulder.z` and `nose.z` directly: when any of
the three is `undefined`, the JS method throws a `TypeError` (caught by
`update`'s try/catch), modelled here as `none`. -/
def e4_calculateEnhancedPosition (calib : E4Calibration)
    (lm : List (Option Landmark)) : Option Vec3 :=
  match getLm lm 11, getLm lm 12, getLm lm 0 with
  | some ls, some rs, some nose =>
    let shoulderCenter := midpointO (some ls) (some rs)
    let hipCenter := midpointO (getLm lm 23) (getLm lm 24)
    let torsoCenter : Vec3 :=
      ⟨(shoulderCenter.x + hipCenter.x) / 2,
       (shoulderCenter.y + hipCenter.y) / 2,
       (shoulderCenter.z + hipCenter.z) / 2⟩
    let avgDepth := (ls.z + rs.z + nose.z) / 3
    let depthOffset := calib.depthMultiplier + avgDepth * 4
    some ⟨(torsoCenter.x - 1/2) * 12 + calib.horizontalOffset,
          -(torsoCenter.y - 1/2) * 12 + calib.verticalOffset,
          depthOffset⟩
  | _, _, _ => none

/-- `calculateEnhancedRotation(landmarks)` (part_004 lines 272–302).
Reads the shoulder fields and `nose.y` directly, so the same missing
landmarks throw (modelled as `none`); hips are null-safe via
`midpoint`. -/
def e4_calculateEnhancedRotation (M : JsMath)
    (lm : List (Option Landmark)) : Option Vec3 :=
  match getLm lm 11, getLm lm 12, getLm lm 0 with
  | some ls, some rs, some nose =>
    let dx := rs.x - ls.x
    let dy := rs.y - ls.y
    let rollAngle := M.atan2 dy dx
    let shoulderWidth := M.sqrt (dx * dx + dy * dy)
    let depthDiff := rs.z - ls.z
    let yawAngle := M.atan2 depthDiff shoulderWidth * (9/5)
    let shoulderCenter := midpointO (some ls) (some rs)
    let hipCenter := midpointO (getLm lm 23) (getLm lm 24)
    let torsoCenter : Vec3 :=
      ⟨(shoulderCenter.x + hipCenter.x) / 2,
       (shoulderCenter.y + hipCenter.y) / 2,
       (shoulderCenter.z + hipCenter.z) / 2⟩
    let pitchAngle := (nose.y - torsoCenter.y) * (1/2)
    some ⟨M.pi + pitchAngle, M.pi + yawAngle, -rollAngle⟩
  | _, _, _ => none

/-- `calculateEnhancedScale(landmarks)` (part_004 lines 307–340):
shoulder width × 18, nudged by the torso/shoulder ratio, clamped to
[3, 15]. When `shoulderWidth = 0`, JS computes the ratio as
`Infinity`/`NaN` while `ℚ` gives 0; either way the pre-clamp scale is 0
and the clamped result is 3, so the observable value agrees. -/
def e4_calculateEnhancedScale (M : JsMath) (calib : E4Calibration)
    (lm : List (Option Landmark)) : ℚ :=
  let shoulderWidth := distance3D M (getLm lm 11) (getLm lm 12)
  let shoulderCenter := midpointO (getLm lm 11) (getLm lm 12)
  let hipCenter := midpointO (getLm lm 23) (getLm lm 24)
  let torsoLength := distanceV M shoulderCenter hipCenter
  let scale0 := shoulderWidth * calib.scaleMultiplier
  let torsoRatio := torsoLength / shoulderWidth
  let scale1 :=
    if 3/2 < torsoRatio then scale0 * (11/10)
    else if torsoRatio < 1 then scale0 * (19/20)
    else scale0
  clamp scale1 3 15

/-- `update(poseData)` of part_004 (lines 171–231). `performance.now()`
is passed in as `now`. Order of effects follows the source: throttle
(which records `lastUpdateTime` even when the landmarks turn out to be
invalid), landmark-count guard, confidence computation and history
push, the average-confidence gate with `handleLowConfidence`
(lines 463–477: hide the jacket and stop tracking only when the mean of
the last five recorded confidences is below `minConfidence * 0.5`),
model availability, and finally the `try` block, where a missing
shoulder or nose throws after `currentMeasurements` has already been
written and `handleUpdateError` (lines 482–485) resets the tracker. -/
def e4_update (M : JsMath) (s : E4State) (j : Option Jacket)
    (pose : Option PoseData) (now : ℚ) : E4State × Option Jacket :=
  if s.initialized = false then (s, j) else
  match pose with
  | none => (s, j)
  | some pd =>
    if now - s.lastUpdateTime < e4_updateInterval then (s, j) else
    let s1 := { s with lastUpdateTime := now }
    match pd.landmarks with
    | none => (s1, j)
    | some lm =>
      if lm.length < 33 then (s1, j) else
      let conf := e4_calculateConfidence lm
      let hist := e4_pushHistory s1.confidenceHistory conf
      let s2 := { s1 with confidenceHistory := hist }
      if listAvg hist < e4_minConfidence then
        if listAvg (lastN 5 hist) < e4_minConfidence * (1/2) then
          ({ s2 with isTracking := false }, hideJacketO j)
        else (s2, j)
      else
        match j with
        | none => (s2, j)
        | some jk =>
          let s3 := { s2 with currentMeasurements := e4_extract M lm }
          match e4_calculateEnhancedPosition s3.calibration lm,
                e4_calculateEnhancedRotation M lm with
          | some pos, some rot =>
            let sc := e4_calculateEnhancedScale M s3.calibration lm
            let fPosX := kalmanUpdate s3.filters.posX pos.x
            let fPosY := kalmanUpdate s3.filters.posY pos.y
            let fPosZ := kalmanUpdate s3.filters.posZ pos.z
            let fRotX := kalmanUpdate s3.filters.rotX rot.x
            let fRotY := kalmanUpdate s3.filters.rotY rot.y
            let fRotZ := kalmanUpdate s3.filters.rotZ rot.z
            let fScale := kalmanUpdate s3.filters.scale sc
            ({ s3 with
                filters := ⟨fPosX, fPosY, fPosZ, fRotX, fRotY, fRotZ, fScale⟩
                isTracking := true
                trackingQuality := conf
                lastPose := some pd },
             some { jk with
                position := ⟨fPosX.x, fPosY.x, fPosZ.x⟩
                rotation := ⟨fRotX.x, fRotY.x, fRotZ.x⟩
                scale := ⟨fScale.x, fScale.x, fScale.x⟩
                visible := true })
          | _, _ => (e4_reset s3, some jk)

/-! ## CompositeRenderer video background plane (src/frontend/js/renderer.js) -/

/-- `THREE.MathUtils.degToRad`: degrees × π / 180. -/
def degToRad (M : JsMath) (deg : ℚ) : ℚ :=
  deg * M.pi / 180

/-- The world dimensions `(width, height)` of the video background
plane as computed by both `createVideoTexture` (renderer.js lines
74–78) and `onResize` (lines 222–232): the plane sits at `z = -10`, so
`distance = |camera.position.z - (-10)|`, the height is
`2 * tan(vFOV / 2) * distance`, and the width is `height * aspect`.
`onResize` realises these dimensions through `videoPlane.scale.set`
(new dimension divided by the geometry's original parameter), so the
resulting world size is exactly this pair. -/
def planeDims (M : JsMath) (fovDeg camPosZ aspect : ℚ) : ℚ × ℚ :=
  let distance := |camPosZ - (-10)|
  let vFOV := degToRad M fovDeg
  let planeHeight := 2 * M.tan (vFOV / 2) * distance
  let planeWidth := planeHeight * aspect
  (planeWidth, planeHeight)

/-- The plane dimensions as the spec's words state them ("its height
equals `2*tan(fov/2)*distance*aspect` and its width equals that height
times the aspect ratio"), written for comparison with `planeDims`. -/
def specPlaneDims (M : JsMath) (fovDeg camPosZ aspect : ℚ) : ℚ × ℚ :=
  let distance := |camPosZ - (-10)|
  let vFOV := degToRad M fovDeg
  let planeHeight := 2 * M.tan (vFOV / 2) * distance * aspect
  let planeWidth := planeHeight * aspect
  (planeWidth, planeHeight)

/-! ## Shared lemmas and concrete evaluation inputs -/

/-- A clamped value always lands in `[lo, hi]` when the range is
non-degenerate, whatever the input. -/
theorem clamp_mem (x lo hi : ℚ) (h : lo ≤ hi) :
    lo ≤ clamp x lo hi ∧ clamp x lo hi ≤ hi := by
  unfold clamp
  exact ⟨le_min (le_max_right x lo) h, min_le_right _ _⟩

/-- A full 33-slot landmark array holding the same landmark at every
index, for concrete evaluation. -/
def mkLandmarks (l : Landmark) : List (Option Landmark) :=
  List.replicate 33 (some l)

/-- A garment object with identity transform and the given visibility. -/
def plainJacket (vis : Bool) : Jacket :=
  ⟨⟨0, 0, 0⟩, ⟨0, 0, 0⟩, ⟨1, 1, 1⟩, vis, []⟩

/-! ## C10: Kalman filter update invariants -/

/-- C10: for every `KalmanFilter` with `Q > 0`, `R > 0` and current
covariance `P > 0`, one `update` keeps the covariance strictly positive
and strictly below the predicted covariance `P + Q`, keeps the gain
`K = (P+Q)/((P+Q)+R)` strictly between 0 and 1, and moves the estimate
to a point between the previous estimate and the measurement. -/
theorem kalmanUpdate_invariants (k : KState) (m : ℚ)
    (hQ : 0 < k.Q) (hR : 0 < k.R) (hP : 0 < k.P) :
    (0 < (kalmanUpdate k m).P ∧ (kalmanUpdate k m).P < k.P + k.Q) ∧
    (0 < (k.P + k.Q) / ((k.P + k.Q) + k.R) ∧
      (k.P + k.Q) / ((k.P + k.Q) + k.R) < 1) ∧
    (min k.x m ≤ (kalmanUpdate k m).x ∧ (kalmanUpdate k m).x ≤ max k.x m) := by
  have hPpred : 0 < k.P + k.Q := by linarith
  have hden : 0 < (k.P + k.Q) + k.R := by linarith
  have hK0 : 0 < (k.P + k.Q) / ((k.P + k.Q) + k.R) := div_pos hPpred hden
  have hK1 : (k.P + k.Q) / ((k.P + k.Q) + k.R) < 1 := by
    rw [div_lt_one hden]; linarith
  set K := (k.P + k.Q) / ((k.P + k.Q) + k.R) with hKdef
  have hx : (kalmanUpdate k m).x = k.x + K * (m - k.x) := by
    simp only [kalmanUpdate]
  have hPP : (kalmanUpdate k m).P = (1 - K) * (k.P + k.Q) := by
    simp only [kalmanUpdate]
  refine ⟨⟨?_, ?_⟩, ⟨hK0, hK1⟩, ?_, ?_⟩
  · rw [hPP]; exact mul_pos (by linarith) hPpred
  · rw [hPP]
    calc (1 - K) * (k.P + k.Q) < 1 * (k.P + k.Q) := by
          exact mul_lt_mul_of_pos_right (by linarith) hPpred
      _ = k.P + k.Q := one_mul _
  · rw [hx]
    rcases le_total k.x m with h | h
    · have h1 : 0 ≤ K * (m - k.x) := mul_nonneg hK0.le (by linarith)
      exact le_trans (min_le_left _ _) (by linarith)
    · have h1 : 1 * (m - k.x) ≤ K * (m - k.x) :=
        mul_le_mul_of_nonpos_right hK1.le (by linarith)
      exact le_trans (min_le_right _ _) (by linarith)
  · rw [hx]
    rcases le_total k.x m with h | h
    · have h1 : K * (m - k.x) ≤ 1 * (m - k.x) :=
        mul_le_mul_of_nonneg_right hK1.le (by linarith)
      exact le_trans (by linarith) (le_max_right _ _)
    · have h1 : K * (m - k.x) ≤ 0 :=
        mul_nonpos_of_nonneg_of_nonpos hK0.le (by linarith)
      exact le_trans (by linarith) (le_max_left _ _)

/-- Witness for C10: the invariants at the concrete filter
`posZ`-style constants `Q = 0.001`, `R = 0.1`, `P = 1`, estimate 0,
measurement 1. -/
theorem kalmanUpdate_invariants_witness :
    (0 < (⟨0, 1, 1/1000, 1/10⟩ : KState).Q ∧
     0 < (⟨0, 1, 1/1000, 1/10⟩ : KState).R ∧
     0 < (⟨0, 1, 1/1000, 1/10⟩ : KState).P) ∧
    ((0 < (kalmanUpdate ⟨0, 1, 1/1000, 1/10⟩ 1).P ∧
      (kalmanUpdate ⟨0, 1, 1/1000, 1/10⟩ 1).P <
        (⟨0, 1, 1/1000, 1/10⟩ : KState).P + (⟨0, 1, 1/1000, 1/10⟩ : KState).Q) ∧
     (0 < ((⟨0, 1, 1/1000, 1/10⟩ : KState).P + (⟨0, 1, 1/1000, 1/10⟩ : KState).Q) /
          (((⟨0, 1, 1/1000, 1/10⟩ : KState).P + (⟨0, 1, 1/1000, 1/10⟩ : KState).Q) +
            (⟨0, 1, 1/1000, 1/10⟩ : KState).R) ∧
      ((⟨0, 1, 1/1000, 1/10⟩ : KState).P + (⟨0, 1, 1/1000, 1/10⟩ : KState).Q) /
          (((⟨0, 1, 1/1000, 1/10⟩ : KState).P + (⟨0, 1, 1/1000, 1/10⟩ : KState).Q) +
            (⟨0, 1, 1/1000, 1/10⟩ : KState).R) < 1) ∧
     (min (⟨0, 1, 1/1000, 1/10⟩ : KState).x 1 ≤ (kalmanUpdate ⟨0, 1, 1/1000, 1/10⟩ 1).x ∧
      (kalmanUpdate ⟨0, 1, 1/1000, 1/10⟩ 1).x ≤ max (⟨0, 1, 1/1000, 1/10⟩ : KState).x 1)) :=
  ⟨⟨by norm_num, by norm_num, by norm_num⟩,
   kalmanUpdate_invariants ⟨0, 1, 1/1000, 1/10⟩ 1 (by norm_num) (by norm_num) (by norm_num)⟩

/-! ## C1: the computed garment scale is always clamped -/

/-- C1: whenever both shoulder landmarks are present,
`calculateShoulderScale` (3D shoulder distance × scale multiplier, then
clamped) lies in the configured range [8, 30], for every calibration
and however extreme the landmark coordinates; and part_004's
`calculateEnhancedScale` likewise always lies in its range [3, 15].
In particular the computed scale is never zero, negative or
unbounded. -/
theorem shoulderScale_clamped (M : JsMath) (calib : Calibration)
    (calib4 : E4Calibration) (lm lm4 : List (Option Landmark))
    (hl : (getLm lm 11).isSome) (hr : (getLm lm 12).isSome) :
    (8 ≤ em_calculateShoulderScale M calib lm ∧
      em_calculateShoulderScale M calib lm ≤ 30) ∧
    (3 ≤ e4_calculateEnhancedScale M calib4 lm4 ∧
      e4_calculateEnhancedScale M calib4 lm4 ≤ 15) := by
  constructor
  · rw [Option.isSome_iff_exists] at hl hr
    obtain ⟨ls, h11⟩ := hl
    obtain ⟨rs, h12⟩ := hr
    simp only [em_calculateShoulderScale, h11, h12]
    exact clamp_mem _ 8 30 (by norm_num)
  · simp only [e4_calculateEnhancedScale]
    exact clamp_mem _ 3 15 (by norm_num)

/-- Witness for C1: the clamp bounds at a concrete frontal pose whose
shoulders sit at x = 0.4 and 0.6. -/
theorem shoulderScale_clamped_witness :
    ((getLm (mkLandmarks ⟨2/5, 1/2, 0, some 1⟩) 11).isSome ∧
     (getLm (mkLandmarks ⟨2/5, 1/2, 0, some 1⟩) 12).isSome) ∧
    ((8 ≤ em_calculateShoulderScale anyMath em_defaultCalibration
        (mkLandmarks ⟨2/5, 1/2, 0, some 1⟩) ∧
      em_calculateShoulderScale anyMath em_defaultCalibration
        (mkLandmarks ⟨2/5, 1/2, 0, some 1⟩) ≤ 30) ∧
     (3 ≤ e4_calculateEnhancedScale anyMath e4_defaultCalibration
        (mkLandmarks ⟨2/5, 1/2, 0, some 1⟩) ∧
      e4_calculateEnhancedScale anyMath e4_defaultCalibration
        (mkLandmarks ⟨2/5, 1/2, 0, some 1⟩) ≤ 15)) :=
  ⟨⟨by decide, by decide⟩,
   shoulderScale_clamped anyMath em_defaultCalibration e4_defaultCalibration
     (mkLandmarks ⟨2/5, 1/2, 0, some 1⟩) (mkLandmarks ⟨2/5, 1/2, 0, some 1⟩)
     (by decide) (by decide)⟩

/-! ## C6: EMA convergence to a held raw value -/

/-- C6: for any smoothing coefficient α ∈ (0, 1] and any start value,
feeding the same raw value `v` repeatedly makes the error after `n`
frames exactly `(1 - α)^n · |s₀ - v|`, and for every ε > 0 the smoothed
value is within ε of `v` from some frame count on. -/
theorem ema_converges (alpha v s0 : ℚ) (h0 : 0 < alpha) (h1 : alpha ≤ 1) :
    (∀ n, |emaIter alpha v s0 n - v| = (1 - alpha) ^ n * |s0 - v|) ∧
    (∀ ε : ℚ, 0 < ε → ∃ N, ∀ n, N ≤ n → |emaIter alpha v s0 n - v| ≤ ε) := by
  have herr : ∀ n, |emaIter alpha v s0 n - v| = (1 - alpha) ^ n * |s0 - v| := by
    intro n
    induction n with
    | zero => simp [emaIter]
    | succ n ih =>
      have hstep : emaIter alpha v s0 (n + 1) - v =
          (1 - alpha) * (emaIter alpha v s0 n - v) := by
        simp only [emaIter, ema]; ring
      rw [hstep, abs_mul, abs_of_nonneg (by linarith : (0 : ℚ) ≤ 1 - alpha), ih,
        pow_succ]
      ring
  refine ⟨herr, ?_⟩
  intro ε hε
  by_cases hz : |s0 - v| = 0
  · exact ⟨0, fun n _ => by rw [herr n, hz, mul_zero]; exact hε.le⟩
  · have habs : 0 < |s0 - v| := lt_of_le_of_ne (abs_nonneg _) (Ne.symm hz)
    obtain ⟨N, hN⟩ := exists_pow_lt_of_lt_one (div_pos hε habs)
      (by linarith : 1 - alpha < 1)
    refine ⟨N, fun n hn => ?_⟩
    have hmono : (1 - alpha) ^ n ≤ (1 - alpha) ^ N :=
      pow_le_pow_of_le_one (by linarith) (by linarith) hn
    calc |emaIter alpha v s0 n - v| = (1 - alpha) ^ n * |s0 - v| := herr n
      _ ≤ (1 - alpha) ^ N * |s0 - v| := by
          exact mul_le_mul_of_nonneg_right hmono (abs_nonneg _)
      _ ≤ (ε / |s0 - v|) * |s0 - v| := by
          exact mul_le_mul_of_nonneg_right hN.le (abs_nonneg _)
      _ = ε := div_mul_cancel₀ ε (ne_of_gt habs)

/-- Witness for C6: the exact error identity and the convergence bound
at α = 0.15 (the mapper's smoothing coefficient), raw value 4, start 0. -/
theorem ema_converges_witness :
    (0 < (15/100 : ℚ) ∧ (15/100 : ℚ) ≤ 1) ∧
    ((∀ n, |emaIter (15/100) 4 0 n - 4| = (1 - 15/100) ^ n * |0 - 4|) ∧
     (∀ ε : ℚ, 0 < ε → ∃ N, ∀ n, N ≤ n → |emaIter (15/100) 4 0 n - 4| ≤ ε)) :=
  ⟨⟨by norm_num, by norm_num⟩,
   ema_converges (15/100) 4 0 (by norm_num) (by norm_num)⟩

/-! ## C4: confidence estimates stay in [0, 1] and fail soft -/

/-- The visibility accumulator keeps `0 ≤ total ≤ validPoints` as long
as every present visibility lies in [0, 1]. -/
theorem visStep_foldl_bounds (lm : List (Option Landmark))
    (hvis : ∀ i l v, getLm lm i = some l → l.visibility = some v → 0 ≤ v ∧ v ≤ 1)
    (idxs : List ℕ) :
    ∀ a : ℚ × ℕ, 0 ≤ a.1 → a.1 ≤ (a.2 : ℚ) →
      0 ≤ (idxs.foldl (visStep lm) a).1 ∧
        (idxs.foldl (visStep lm) a).1 ≤ ((idxs.foldl (visStep lm) a).2 : ℚ) := by
  induction idxs with
  | nil => intro a h0 h1; exact ⟨h0, h1⟩
  | cons i rest ih =>
    intro a h0 h1
    rw [List.foldl_cons]
    have hstep : 0 ≤ (visStep lm a i).1 ∧ (visStep lm a i).1 ≤ ((visStep lm a i).2 : ℚ) := by
      cases hgl : getLm lm i with
      | none => simp only [visStep, hgl]; exact ⟨h0, h1⟩
      | some l =>
        cases hv : l.visibility with
        | none => simp only [visStep, hgl, hv]; exact ⟨h0, h1⟩
        | some v =>
          obtain ⟨hv0, hv1⟩ := hvis i l v hgl hv
          simp only [visStep, hgl, hv]
          refine ⟨?_, ?_⟩
          · show (0 : ℚ) ≤ a.1 + v
            linarith
          · show a.1 + v ≤ ((a.2 + 1 : ℕ) : ℚ)
            push_cast
            linarith
    exact ih _ hstep.1 hstep.2

/-- C4: under the assumption that every present landmark visibility
lies in [0, 1], `calculateConfidence` returns a scalar in [0, 1]; and
through the update gate, a null pose, an absent landmark array, or
fewer than 33 landmarks yields a confidence of exactly 0 (no processing
happens, hence no thrown error). -/
theorem confidence_unit_interval :
    (∀ lm : List (Option Landmark),
        (∀ i l v, getLm lm i = some l → l.visibility = some v → 0 ≤ v ∧ v ≤ 1) →
        0 ≤ em_calculateConfidence lm ∧ em_calculateConfidence lm ≤ 1) ∧
    em_confidenceEstimate none = 0 ∧
    (∀ pd : PoseData, pd.landmarks = none → em_confidenceEstimate (some pd) = 0) ∧
    (∀ (pd : PoseData) (lm : List (Option Landmark)),
        pd.landmarks = some lm → lm.length < 33 →
        em_confidenceEstimate (some pd) = 0) := by
  refine ⟨?_, rfl, ?_, ?_⟩
  · intro lm hvis
    have hb := visStep_foldl_bounds lm hvis [11, 12, 13, 14, 0] (0, 0) le_rfl (by norm_num)
    unfold em_calculateConfidence
    set acc := [11, 12, 13, 14, 0].foldl (visStep lm) ((0 : ℚ), (0 : ℕ)) with hacc
    by_cases hpos : 0 < acc.2
    · have hposq : (0 : ℚ) < (acc.2 : ℚ) := by exact_mod_cast hpos
      rw [if_pos hpos]
      exact ⟨div_nonneg hb.1 hposq.le, (div_le_one hposq).2 hb.2⟩
    · rw [if_neg hpos]
      exact ⟨le_rfl, by norm_num⟩
  · intro pd h
    simp [em_confidenceEstimate, h]
  · intro pd lm h h33
    simp [em_confidenceEstimate, h, h33]

/-- Witness for C4: the bound at the empty landmark set (the visibility
assumption is vacuous there), together with the null-pose gate. -/
theorem confidence_unit_interval_witness :
    (0 ≤ em_calculateConfidence [] ∧ em_calculateConfidence [] ≤ 1) ∧
    em_confidenceEstimate none = 0 :=
  ⟨confidence_unit_interval.1 []
      (by intro i l v h _; simp [getLm, List.getD] at h),
   confidence_unit_interval.2.1⟩

/-! ## C7: missing shoulders yield the configured defaults -/

/-- C7: for every 33-landmark pose with the left or right shoulder
absent, the mapper returns its configured defaults: position
`(0, 0, depthOffset)`, rotation `(π, π, 0)` and the default scale 10 —
all well-defined rationals (never NaN/undefined). -/
theorem missing_shoulder_defaults (M : JsMath) (calib : Calibration)
    (lm : List (Option Landmark)) (_h33 : 33 ≤ lm.length)
    (h : getLm lm 11 = none ∨ getLm lm 12 = none) :
    em_calculateShoulderPosition calib lm = ⟨0, 0, calib.depthOffset⟩ ∧
    em_calculateBodyRotation M lm = ⟨M.pi, M.pi, 0⟩ ∧
    em_calculateShoulderScale M calib lm = 10 := by
  refine ⟨?_, ?_, ?_⟩ <;>
  · rcases h with h | h
    · cases h12 : getLm lm 12 <;>
        simp [em_calculateShoulderPosition, em_calculateBodyRotation,
          em_calculateShoulderScale, h, h12]
    · cases h11 : getLm lm 11 <;>
        simp [em_calculateShoulderPosition, em_calculateBodyRotation,
          em_calculateShoulderScale, h, h11]

/-- A 33-slot landmark array whose right-shoulder slot (index 12) is
`undefined`. -/
def lmMissingRightShoulder : List (Option Landmark) :=
  List.replicate 12 (some ⟨1/2, 1/2, 0, some 1⟩) ++ [none] ++
    List.replicate 20 (some ⟨1/2, 1/2, 0, some 1⟩)

/-- Witness for C7: the defaults at a concrete 33-landmark pose whose
right shoulder is missing. -/
theorem missing_shoulder_defaults_witness :
    (33 ≤ lmMissingRightShoulder.length ∧
      (getLm lmMissingRightShoulder 11 = none ∨
        getLm lmMissingRightShoulder 12 = none)) ∧
    (em_calculateShoulderPosition em_defaultCalibration lmMissingRightShoulder =
        ⟨0, 0, em_defaultCalibration.depthOffset⟩ ∧
      em_calculateBodyRotation anyMath lmMissingRightShoulder =
        ⟨anyMath.pi, anyMath.pi, 0⟩ ∧
      em_calculateShoulderScale anyMath em_defaultCalibration lmMissingRightShoulder = 10) :=
  ⟨⟨by decide, Or.inr (by decide)⟩,
   missing_shoulder_defaults anyMath em_defaultCalibration lmMissingRightShoulder
     (by decide) (Or.inr (by decide))⟩

/-! ## C2: update(null) before tracking -/

/-- An initialized `EnhancedSkeletonMapper` that is past the
forced-visibility acquisition point (`updateCount > 3`) but has never
shown the jacket. -/
def em_pastAcquisitionState : EMState :=
  { em_init 640 480 em_initialState with updateCount := 10 }

/-- Counterexample for C2: on `EnhancedSkeletonMapper`, `update(null)`
before any successful tracking is a pure no-op — even past the
configured acquisition point it leaves the mapper state and the
garment (still invisible, identity transform) completely untouched,
because `update` returns immediately on a null pose (line 42). -/
theorem update_null_noop_cex :
    em_update anyMath em_pastAcquisitionState (some (plainJacket false)) none =
      (em_pastAcquisitionState, some (plainJacket false)) ∧
    (plainJacket false).visible = false ∧
    em_pastAcquisitionState.hasShownJacket = false ∧
    3 < em_pastAcquisitionState.updateCount := by
  refine ⟨?_, rfl, rfl, by decide⟩
  unfold em_update
  split <;> rfl

/-- C2 (amended): `EnhancedSkeletonMapper.update(null)` is always a
pure no-op; the default-transform fallback lives in the `SkeletonMapper`
iteration, whose `update(null)` — once initialized, with the model
loaded and before the initial position has been set — applies the
configured default transform (position `(0,0,0)`, rotation `(0, π, 0)`,
scale 2.5) and sets the garment and all of its meshes visible. -/
theorem update_null_fallback (M : JsMath) (s : EMState) (j : Option Jacket)
    (sm : SMState) (jk : Jacket)
    (hinit : sm.initialized = true) (hset : sm.hasSetInitialPosition = false) :
    em_update M s j none = (s, j) ∧
    sm_update M sm (some jk) none =
      ({ sm with hasSetInitialPosition := true },
       some { position := ⟨0, 0, 0⟩
              rotation := ⟨0, M.pi, 0⟩
              scale := ⟨5/2, 5/2, 5/2⟩
              visible := true
              meshes := jk.meshes.map (fun _ => ⟨true, false⟩) }) := by
  constructor
  · unfold em_update
    split <;> rfl
  · unfold sm_update
    simp [hinit, hset, sm_setInitialPosition]

/-- Witness for C2 (amended): the fallback at a concrete fresh
initialized `SkeletonMapper` and a hidden one-mesh jacket. -/
theorem update_null_fallback_witness :
    (({ sm_initialState anyMath with initialized := true } : SMState).initialized = true ∧
      ({ sm_initialState anyMath with initialized := true } : SMState).hasSetInitialPosition
        = false) ∧
    (em_update anyMath em_initialState none none = (em_initialState, none) ∧
     sm_update anyMath { sm_initialState anyMath with initialized := true }
        (some ⟨⟨1, 2, 3⟩, ⟨0, 0, 0⟩, ⟨1, 1, 1⟩, false, [⟨false, true⟩]⟩) none =
      ({ { sm_initialState anyMath with initialized := true } with
            hasSetInitialPosition := true },
       some { position := ⟨0, 0, 0⟩
              rotation := ⟨0, anyMath.pi, 0⟩
              scale := ⟨5/2, 5/2, 5/2⟩
              visible := true
              meshes := ([⟨false, true⟩] : List Mesh).map (fun _ => ⟨true, false⟩) })) :=
  ⟨⟨rfl, rfl⟩,
   update_null_fallback anyMath em_initialState none
     { sm_initialState anyMath with initialized := true }
     ⟨⟨1, 2, 3⟩, ⟨0, 0, 0⟩, ⟨1, 1, 1⟩, false, [⟨false, true⟩]⟩ rfl rfl⟩

/-! ## C3: visibility after first acquisition -/

/-- A part_004 mapper that has acquired tracking (garment visible,
`isTracking`) while the recent recorded confidences are low. -/
def lowConfState : E4State :=
  { e4_initialState with
    initialized := true
    isTracking := true
    confidenceHistory := [0, 0, 0, 0] }

/-- A full 33-landmark pose whose key points all carry visibility 0. -/
def lowConfPose : PoseData :=
  ⟨some (mkLandmarks ⟨1/2, 1/2, 0, some 0⟩)⟩

/-- Counterexample for C3: with the garment visible and tracking
acquired, a single further `update` call on part_004's mapper with a
low-confidence pose sets the garment's visibility back to false (the
`hideJacket` path of `handleLowConfidence`, reached from inside
`update`, not by any external controller action). -/
theorem update_hides_garment_cex :
    (plainJacket true).visible = true ∧
    lowConfState.isTracking = true ∧
    (e4_update anyMath lowConfState (some (plainJacket true))
        (some lowConfPose) 1000).2 =
      some (plainJacket false) := by
  refine ⟨rfl, rfl, ?_⟩
  norm_num [e4_update, lowConfState, lowConfPose, plainJacket, e4_initialState,
    e4_minConfidence, e4_updateInterval, e4_pushHistory, listAvg, lastN, hideJacketO,
    e4_calculateConfidence, visStep, e4_isFrontalPose, e4_calculateSymmetry, clamp,
    anyMath, getLm, mkLandmarks]

/-- C3 (amended): in `EnhancedSkeletonMapper`, once the garment is
visible no `update` call ever makes it invisible. In part_004's mapper,
missed frames (`update(null)`) change nothing at all, and an `update`
sets visibility to false only on the extended-low-confidence path: the
history average (after recording the frame's confidence) is below
`minConfidence` and the mean of the last five recorded confidences is
below `minConfidence * 0.5` — that is the one explicit `hideJacket`
action; visibility is never dropped on any other path. -/
theorem visibility_controlled (M : JsMath) :
    (∀ (s : EMState) (jk : Jacket) (pose : Option PoseData),
        jk.visible = true →
        ((em_update M s (some jk) pose).2).map Jacket.visible = some true) ∧
    (∀ (s : E4State) (j : Option Jacket) (now : ℚ),
        e4_update M s j none now = (s, j)) ∧
    (∀ (s : E4State) (jk : Jacket) (pd : PoseData) (now : ℚ),
        jk.visible = true →
        ((e4_update M s (some jk) (some pd) now).2).map Jacket.visible = some false →
        ∃ lm, pd.landmarks = some lm ∧ 33 ≤ lm.length ∧
          listAvg (e4_pushHistory s.confidenceHistory (e4_calculateConfidence lm))
            < e4_minConfidence ∧
          listAvg (lastN 5 (e4_pushHistory s.confidenceHistory (e4_calculateConfidence lm)))
            < e4_minConfidence * (1/2)) := by
  refine ⟨?_, ?_, ?_⟩
  · intro s jk pose hvis
    by_cases hinit : s.initialized = false
    · rcases pose with _ | pd <;> simp [em_update, hinit, hvis]
    · rcases pose with _ | ⟨_ | lm⟩
      · simp [em_update, hinit, hvis]
      · simp [em_update, hinit, hvis]
      · by_cases hlen : lm.length < 33
        · simp [em_update, hinit, hlen, hvis]
        · simp [em_update, hinit, hlen, hvis]
  · intro s j now
    unfold e4_update
    split <;> rfl
  · intro s jk pd now hvis hfalse
    rcases pd with ⟨lms⟩
    rcases lms with _ | lm
    · simp only [e4_update] at hfalse
      split at hfalse <;> simp [hvis] at hfalse
      split at hfalse <;> simp [hvis] at hfalse
    · simp only [e4_update] at hfalse
      split at hfalse
      · simp [hvis] at hfalse
      · split at hfalse
        · simp [hvis] at hfalse
        · split at hfalse
          · simp [hvis] at hfalse
          · rename_i h33
            split at hfalse
            · rename_i havg
              split at hfalse
              · rename_i hrecent
                exact ⟨lm, rfl, by omega, havg, hrecent⟩
              · simp [hvis] at hfalse
            · split at hfalse <;> simp [hvis, hideJacketO] at hfalse

/-- Witness for C3 (amended): visibility preservation evaluated on a
fresh mapper with a visible jacket and a null pose; a literal no-op
missed frame on part_004; and the hide conditions extracted at the
concrete low-confidence scenario. -/
theorem visibility_controlled_witness :
    ((plainJacket true).visible = true ∧
      ((em_update anyMath em_initialState (some (plainJacket true)) none).2).map
          Jacket.visible = some true) ∧
    e4_update anyMath e4_initialState none none 0 = (e4_initialState, none) ∧
    (∃ lm, lowConfPose.landmarks = some lm ∧ 33 ≤ lm.length ∧
      listAvg (e4_pushHistory lowConfState.confidenceHistory (e4_calculateConfidence lm))
        < e4_minConfidence ∧
      listAvg (lastN 5 (e4_pushHistory lowConfState.confidenceHistory
          (e4_calculateConfidence lm)))
        < e4_minConfidence * (1/2)) :=
  ⟨⟨rfl, (visibility_controlled anyMath).1 em_initialState (plainJacket true) none rfl⟩,
   (visibility_controlled anyMath).2.1 e4_initialState none 0,
   (visibility_controlled anyMath).2.2 lowConfState (plainJacket true) lowConfPose 1000 rfl
     (by norm_num [e4_update, lowConfState, lowConfPose, plainJacket, e4_initialState,
       e4_minConfidence, e4_updateInterval, e4_pushHistory, listAvg, lastN, hideJacketO,
       e4_calculateConfidence, visStep, e4_isFrontalPose, e4_calculateSymmetry, clamp,
       anyMath, getLm, mkLandmarks])⟩

/-! ## C5: smoothing state versus rejected frames -/

/-- An initialized `EnhancedSkeletonMapper` that has been tracking for
a while (jacket shown, several updates, buffer at its initial zeros). -/
def em_trackedState : EMState :=
  { em_init 640 480 em_initialState with hasShownJacket := true, updateCount := 10 }

/-- A full 33-landmark pose, off-center (shoulders at x = 0.75), whose
key points all carry visibility 0: its confidence is 0, far below the
mapper's `minConfidence` of 0.3. -/
def zeroVisPose : PoseData :=
  ⟨some (mkLandmarks ⟨3/4, 1/2, 0, some 0⟩)⟩

/-- Counterexample for C5: in `EnhancedSkeletonMapper.update`, the
computed confidence never gates anything — for this frame the
confidence is 0 (below `minConfidence = 0.3`), yet the smoothing buffer
is fed the EMA of that very frame's raw position: its x-channel moves
from 0 to `0 + 0.15·(5 − 0) = 0.75`, where 5 is the rejected frame's
raw x. The smoothing state is neither held nor nudged toward a
fallback. -/
theorem rejected_frame_feeds_smoothing_cex :
    em_calculateConfidence (mkLandmarks ⟨3/4, 1/2, 0, some 0⟩) = 0 ∧
    em_calculateConfidence (mkLandmarks ⟨3/4, 1/2, 0, some 0⟩) < em_minConfidence ∧
    em_trackedState.smoothBuffer.position.x = 0 ∧
    (em_update anyMath em_trackedState (some (plainJacket true))
        (some zeroVisPose)).1.smoothBuffer.position.x =
      ema (em_calculateShoulderPosition em_trackedState.calibration
            (mkLandmarks ⟨3/4, 1/2, 0, some 0⟩)).x
        em_trackedState.smoothBuffer.position.x
        em_trackedState.calibration.smoothingAlpha ∧
    (em_update anyMath em_trackedState (some (plainJacket true))
        (some zeroVisPose)).1.smoothBuffer.position.x = 3/4 := by
  refine ⟨?_, ?_, rfl, ?_, ?_⟩ <;>
  norm_num [em_update, em_trackedState, zeroVisPose, plainJacket, em_init,
    em_initialState, em_defaultCalibration, em_minConfidence,
    em_calculateConfidence, visStep, em_calculateShoulderPosition,
    em_calculateBodyRotation, em_calculateShoulderScale, emaVec, ema, clamp,
    anyMath, getLm, mkLandmarks]

/-- C5 (amended): in part_004's mapper a frame is accepted or rejected
by the average confidence over the recorded history, and a rejected
frame leaves every Kalman filter — and the garment transform —
untouched. In `EnhancedSkeletonMapper`, by contrast, every processed
33-landmark frame updates the smoothing buffer exactly once with the
EMA of that frame's raw transform, with no confidence gate at all. -/
theorem smoothing_update_policy (M : JsMath) :
    (∀ (s : E4State) (j : Option Jacket) (pd : PoseData)
        (lm : List (Option Landmark)) (now : ℚ),
        s.initialized = true →
        ¬ now - s.lastUpdateTime < e4_updateInterval →
        pd.landmarks = some lm →
        ¬ lm.length < 33 →
        listAvg (e4_pushHistory s.confidenceHistory (e4_calculateConfidence lm))
          < e4_minConfidence →
        (e4_update M s j (some pd) now).1.filters = s.filters ∧
        ((e4_update M s j (some pd) now).2).map
            (fun jk => (jk.position, jk.rotation, jk.scale)) =
          j.map (fun jk => (jk.position, jk.rotation, jk.scale))) ∧
    (∀ (s : EMState) (jk : Jacket) (pd : PoseData) (lm : List (Option Landmark)),
        s.initialized = true →
        pd.landmarks = some lm →
        ¬ lm.length < 33 →
        (em_update M s (some jk) (some pd)).1.smoothBuffer =
          ⟨emaVec (em_calculateShoulderPosition s.calibration lm)
              s.smoothBuffer.position s.calibration.smoothingAlpha,
            emaVec (em_calculateBodyRotation M lm)
              s.smoothBuffer.rotation s.calibration.smoothingAlpha,
            emaVec ⟨em_calculateShoulderScale M s.calibration lm,
                em_calculateShoulderScale M s.calibration lm,
                em_calculateShoulderScale M s.calibration lm⟩
              s.smoothBuffer.scale s.calibration.smoothingAlpha⟩) := by
  constructor
  · intro s j pd lm now hinit hthr hlm h33 hrej
    simp only [e4_update, hinit, hlm, hthr, h33, hrej, Bool.true_eq_false,
      if_false, if_true, ite_false, ite_true]
    split
    · constructor
      · rfl
      · rcases j with _ | jk <;> simp [hideJacketO]
    · exact ⟨rfl, rfl⟩
  · intro s jk pd lm hinit hlm hlen
    simp only [em_update, hinit, hlm, hlen, Bool.true_eq_false, if_false, ite_false]
    split <;> rfl

/-- Witness for C5 (amended): the rejection invariance evaluated at the
concrete low-confidence scenario (recent average 0.02 < 0.7), and the
single-EMA-step buffer law at the same frame on the EMA mapper. -/
theorem smoothing_update_policy_witness :
    (lowConfState.initialized = true ∧
      ¬ (1000 : ℚ) - lowConfState.lastUpdateTime < e4_updateInterval ∧
      lowConfPose.landmarks = some (mkLandmarks ⟨1/2, 1/2, 0, some 0⟩) ∧
      ¬ (mkLandmarks ⟨1/2, 1/2, 0, some 0⟩).length < 33 ∧
      listAvg (e4_pushHistory lowConfState.confidenceHistory
          (e4_calculateConfidence (mkLandmarks ⟨1/2, 1/2, 0, some 0⟩)))
        < e4_minConfidence) ∧
    ((e4_update anyMath lowConfState (some (plainJacket true))
        (some lowConfPose) 1000).1.filters = lowConfState.filters ∧
      ((e4_update anyMath lowConfState (some (plainJacket true))
          (some lowConfPose) 1000).2).map
          (fun jk => (jk.position, jk.rotation, jk.scale)) =
        (some (plainJacket true)).map
          (fun jk => (jk.position, jk.rotation, jk.scale))) ∧
    (em_update anyMath em_trackedState (some (plainJacket true))
        (some zeroVisPose)).1.smoothBuffer =
      ⟨emaVec (em_calculateShoulderPosition em_trackedState.calibration
            (mkLandmarks ⟨3/4, 1/2, 0, some 0⟩))
          em_trackedState.smoothBuffer.position
          em_trackedState.calibration.smoothingAlpha,
        emaVec (em_calculateBodyRotation anyMath (mkLandmarks ⟨3/4, 1/2, 0, some 0⟩))
          em_trackedState.smoothBuffer.rotation
          em_trackedState.calibration.smoothingAlpha,
        emaVec ⟨em_calculateShoulderScale anyMath em_trackedState.calibration
              (mkLandmarks ⟨3/4, 1/2, 0, some 0⟩),
            em_calculateShoulderScale anyMath em_trackedState.calibration
              (mkLandmarks ⟨3/4, 1/2, 0, some 0⟩),
            em_calculateShoulderScale anyMath em_trackedState.calibration
              (mkLandmarks ⟨3/4, 1/2, 0, some 0⟩)⟩
          em_trackedState.smoothBuffer.scale
          em_trackedState.calibration.smoothingAlpha⟩ := by
  have hthr : ¬ (1000 : ℚ) - lowConfState.lastUpdateTime < e4_updateInterval := by
    norm_num [lowConfState, e4_initialState, e4_updateInterval]
  have h33 : ¬ (mkLandmarks ⟨(1 : ℚ)/2, 1/2, 0, some 0⟩).length < 33 := by
    norm_num [mkLandmarks]
  have h33b : ¬ (mkLandmarks ⟨(3 : ℚ)/4, 1/2, 0, some 0⟩).length < 33 := by
    norm_num [mkLandmarks]
  have hrej : listAvg (e4_pushHistory lowConfState.confidenceHistory
      (e4_calculateConfidence (mkLandmarks ⟨1/2, 1/2, 0, some 0⟩)))
      < e4_minConfidence := by
    norm_num [lowConfState, e4_initialState, e4_pushHistory, listAvg,
      e4_minConfidence, e4_calculateConfidence, visStep, e4_isFrontalPose,
      e4_calculateSymmetry, clamp, getLm, mkLandmarks]
  exact ⟨⟨rfl, hthr, rfl, h33, hrej⟩,
    (smoothing_update_policy anyMath).1 lowConfState (some (plainJacket true))
      lowConfPose (mkLandmarks ⟨1/2, 1/2, 0, some 0⟩) 1000 rfl hthr rfl h33 hrej,
    (smoothing_update_policy anyMath).2 em_trackedState (plainJacket true)
      zeroVisPose (mkLandmarks ⟨3/4, 1/2, 0, some 0⟩) rfl rfl h33b⟩

/-! ## C9: reset versus fresh construction -/

/-- A well-formed tracking pose: 33 landmarks, full visibility. -/
def trackPose : PoseData :=
  ⟨some (mkLandmarks ⟨1/2, 1/2, 0, some 1⟩)⟩

/-- Counterexample for C9: a freshly constructed mapper has
`initialized = false`, so `update` on it is a no-op (line 42), while
`reset()` leaves `initialized = true`; feeding the identical pose to a
reset mapper and to a fresh instance therefore produces different
outputs (update count 1 vs 0, `isTracking` true vs false). -/
theorem reset_vs_fresh_cex :
    em_initialState.initialized = false ∧
    (em_update anyMath (em_reset (em_init 640 480 em_initialState))
        (some (plainJacket true)) (some trackPose)).1.updateCount = 1 ∧
    (em_update anyMath em_initialState
        (some (plainJacket true)) (some trackPose)).1.updateCount = 0 ∧
    (em_update anyMath (em_reset (em_init 640 480 em_initialState))
        (some (plainJacket true)) (some trackPose)).1.isTracking = true ∧
    (em_update anyMath em_initialState
        (some (plainJacket true)) (some trackPose)).1.isTracking = false := by
  exact ⟨rfl, rfl, rfl, rfl, rfl⟩

/-- C9 (amended): `reset()` on an initialized mapper whose calibration
is still at its constructor defaults restores exactly the state of a
freshly constructed, identically initialized instance, so `update` with
any identical input (pose and garment) then produces identical output.
(reset does not restore `calibration`, so a runtime-calibrated mapper
is not covered.) -/
theorem reset_equals_fresh_init (M : JsMath) (s : EMState) (j : Option Jacket)
    (pose : Option PoseData)
    (hinit : s.initialized = true) (hcal : s.calibration = em_defaultCalibration) :
    em_reset s = em_init s.width s.height em_initialState ∧
    em_update M (em_reset s) j pose =
      em_update M (em_init s.width s.height em_initialState) j pose := by
  have h : em_reset s = em_init s.width s.height em_initialState := by
    cases s with
    | mk w ht i lp hs uc sb cal tr => simp_all [em_reset, em_init, em_initialState]
  exact ⟨h, by rw [h]⟩

/-- Witness for C9 (amended): the equivalence at a concrete used-up
mapper (5 updates, tracking, jacket shown) and a concrete pose. -/
theorem reset_equals_fresh_init_witness :
    (({ em_init 640 480 em_initialState with
          updateCount := 5, isTracking := true, hasShownJacket := true } : EMState).initialized
        = true ∧
      ({ em_init 640 480 em_initialState with
          updateCount := 5, isTracking := true, hasShownJacket := true } : EMState).calibration
        = em_defaultCalibration) ∧
    em_update anyMath
        (em_reset { em_init 640 480 em_initialState with
          updateCount := 5, isTracking := true, hasShownJacket := true })
        (some (plainJacket true)) (some trackPose) =
      em_update anyMath
        (em_init
          ({ em_init 640 480 em_initialState with
              updateCount := 5, isTracking := true, hasShownJacket := true } : EMState).width
          ({ em_init 640 480 em_initialState with
              updateCount := 5, isTracking := true, hasShownJacket := true } : EMState).height
          em_initialState)
        (some (plainJacket true)) (some trackPose) :=
  ⟨⟨rfl, rfl⟩,
   (reset_equals_fresh_init anyMath
      { em_init 640 480 em_initialState with
        updateCount := 5, isTracking := true, hasShownJacket := true }
      (some (plainJacket true)) (some trackPose) rfl rfl).2⟩

/-! ## C8: video background plane dimensions on resize -/

/-- Counterexample for C8: at fov 90°, camera z = 5 (distance 15 to the
plane at z = −10) and aspect ratio 2, the dimensions the code computes
differ from the spec's formula: the code's height is
`2·tan(vFOV/2)·distance` with no aspect factor, not
`2·tan(vFOV/2)·distance·aspect`. (With `anyMath`, `tan` is the identity
and π = 3, so the code's height is 2·(3/4)·15 = 22.5 while the spec
formula gives 45; the two formulas differ whenever `aspect ≠ 1` and the
tangent term is non-zero.) -/
theorem planeDims_spec_mismatch_cex :
    (planeDims anyMath 90 5 2).2 = 45/2 ∧
    (specPlaneDims anyMath 90 5 2).2 = 45 ∧
    planeDims anyMath 90 5 2 ≠ specPlaneDims anyMath 90 5 2 := by
  refine ⟨?_, ?_, ?_⟩ <;>
    norm_num [planeDims, specPlaneDims, degToRad, anyMath, Prod.ext_iff,
      abs_of_nonneg]

/-- C8 (amended): after a resize the video plane's recomputed world
height is exactly `2·tan(fov/2)·distance` (fov in radians via
`degToRad`, distance from the camera to the plane at z = −10), and its
width is that height times the new aspect ratio — the aspect factor
enters the width only, not the height. -/
theorem planeDims_formula (M : JsMath) (fovDeg camPosZ aspect : ℚ) :
    (planeDims M fovDeg camPosZ aspect).2 =
      2 * M.tan (degToRad M fovDeg / 2) * |camPosZ - (-10)| ∧
    (planeDims M fovDeg camPosZ aspect).1 =
      (planeDims M fovDeg camPosZ aspect).2 * aspect :=
  ⟨rfl, rfl⟩
